import Mathlib

/-
Verification of the transaction-and-balance core of the Personal Finance
Manager repository (src/controller.py, src/model.py).

Amounts and balances are Python `Decimal` values in the source; they are
embedded as rationals (ℚ), which `Decimal` arithmetic on +, -, *, / of
finite values embeds into exactly.  Dates are (year, month, day) triples.
The Flask/SQLAlchemy plumbing (sessions, CSRF, HTTP codes) is out of
scope; an HTTP 400 response is embedded as `ApiError.validation` and an
HTTP 404 response as `ApiError.notFound`, matching the error messages the
handlers return.  SQL aggregates from model.py are embedded with their
PostgreSQL (production-branch) semantics, including the fact that SQL
`SUM` over zero rows is NULL (`Option.none`), never 0.
-/

namespace PFM

/-- Transaction direction, controller.py line 413: `transaction_type` must be
`income` or `expense`. -/
inductive TxType where
  | income
  | expense
deriving DecidableEq, Repr

/-- Calendar date as stored in the `transaction_date` / `date` columns. -/
structure TxDate where
  year : Nat
  month : Nat
  day : Nat
deriving DecidableEq, Repr

/-- Gregorian leap-year rule, used only to name the last day of a month. -/
def isLeapYear (y : Nat) : Bool :=
  (y % 4 == 0 && y % 100 != 0) || (y % 400 == 0)

/-- Number of days in a month of the Gregorian calendar. -/
def daysInMonth (y m : Nat) : Nat :=
  if m == 2 then (if isLeapYear y then 29 else 28)
  else if m == 4 || m == 6 || m == 9 || m == 11 then 30
  else 31

/-- A date is valid when its month and day lie in calendar range. -/
def TxDate.valid (d : TxDate) : Prop :=
  1 ≤ d.month ∧ d.month ≤ 12 ∧ 1 ≤ d.day ∧ d.day ≤ daysInMonth d.year d.month

instance (d : TxDate) : Decidable d.valid := by
  unfold TxDate.valid; infer_instance

/-- Lexicographic date comparison, the order SQL uses on DATE columns. -/
def TxDate.ble (a b : TxDate) : Bool :=
  a.year.blt b.year ||
    (a.year == b.year &&
      (a.month.blt b.month || (a.month == b.month && a.day.ble b.day)))

/-- Effect of a new transaction on the account balance,
controller.py lines 464-468: expense subtracts the amount, income adds it. -/
def applyEffect (balance amount : ℚ) (t : TxType) : ℚ :=
  match t with
  | .expense => balance - amount
  | .income => balance + amount

/-- Reversal of a transaction's effect on the account balance,
controller.py lines 529-532 and 570-573: expense adds the amount back,
income subtracts it. -/
def reverseEffect (balance amount : ℚ) (t : TxType) : ℚ :=
  match t with
  | .expense => balance + amount
  | .income => balance - amount

/-- Signed contribution of a transaction to a balance: +amount for income,
-amount for expense. -/
def signedEffect (t : TxType) (amount : ℚ) : ℚ :=
  match t with
  | .income => amount
  | .expense => -amount

/-- A persisted transaction row of the SQLAlchemy `Transaction` model used
by controller.py (id, account_id, category_id, amount, description,
transaction_type, transaction_date). -/
structure Txn where
  id : Nat
  accountId : Nat
  categoryId : Nat
  amount : ℚ
  description : String
  transactionType : TxType
  transactionDate : TxDate
deriving DecidableEq, Repr

/-- A category row as consulted by controller.py: its id, its
`category_type` and its `is_active` flag. -/
structure Category where
  id : Nat
  categoryType : TxType
  isActive : Bool
deriving DecidableEq, Repr

/-- The controller returns HTTP 400 with an error message for validation
failures and HTTP 404 for a missing transaction. -/
inductive ApiError where
  | validation : String → ApiError
  | notFound : String → ApiError
deriving DecidableEq, Repr

/-- Whether an error is one of the HTTP 400 validation responses. -/
def ApiError.isValidation : ApiError → Bool
  | .validation _ => true
  | .notFound _ => false

/-- State of one account's slice of the ledger: its balance, the
transactions persisted against it, the user's categories, and the next
autoincrement transaction id.  `initialBalance` records the balance the
account was created with. -/
structure LedgerState where
  accountId : Nat
  initialBalance : ℚ
  balance : ℚ
  txns : List Txn
  categories : List Category
  nextId : Nat
deriving DecidableEq, Repr

/-- Body of a POST /api/transactions request (controller.py lines 400-462),
after JSON field extraction. -/
structure CreateReq where
  accountId : Nat
  categoryId : Nat
  amount : ℚ
  description : String
  transactionType : TxType
  transactionDate : TxDate
deriving DecidableEq, Repr

/-- Category lookup of controller.py lines 434-438: by id, restricted to
active categories of the authenticated user. -/
def findCategory (cats : List Category) (cid : Nat) : Option Category :=
  cats.find? (fun c => c.id == cid && c.isActive)

/-- create_transaction, controller.py lines 400-478, in source order:
amount must be positive (line 419), the account must exist for this user
(lines 425-431), the category must exist (lines 434-440), the category
type must match the transaction type (lines 443-444); then the new row is
built (description truncated to 255 characters, line 459), the balance is
adjusted (lines 465-468), and row + account are committed together
(lines 470-471). -/
def createTransaction (s : LedgerState) (req : CreateReq) :
    Except ApiError LedgerState :=
  if req.amount ≤ 0 then .error (.validation "Amount must be positive")
  else if req.accountId != s.accountId then .error (.validation "Invalid account")
  else
    match findCategory s.categories req.categoryId with
    | none => .error (.validation "Invalid category")
    | some c =>
      if c.categoryType != req.transactionType then
        .error (.validation "Category type does not match transaction type")
      else
        let t : Txn :=
          { id := s.nextId
            accountId := req.accountId
            categoryId := req.categoryId
            amount := req.amount
            description := req.description.take 255
            transactionType := req.transactionType
            transactionDate := req.transactionDate }
        .ok { s with
                balance := applyEffect s.balance req.amount req.transactionType
                txns := s.txns ++ [t]
                nextId := s.nextId + 1 }

/-- Body of a PUT /api/transactions/id request.  The handler
(controller.py lines 506-523) reads only the `amount`, `description` and
`transaction_date` keys of the JSON payload; `transactionType` records a
direction the client may have sent in the payload, which the handler never
reads.  Dates are embedded already parsed; a malformed date string is
rejected before any state change and is not modelled further. -/
structure UpdatePatch where
  amount : Option ℚ
  description : Option String
  transactionDate : Option TxDate
  transactionType : Option TxType
deriving DecidableEq, Repr

/-- The row mutation performed by update_transaction: the single row the
query's `.first()` returned is updated in place. -/
def replaceFirstTxn : List Txn → Nat → Txn → List Txn
  | [], _, _ => []
  | u :: rest, tid, t' =>
    if u.id == tid then t' :: rest else u :: replaceFirstTxn rest tid t'

/-- The row removal performed by delete_transaction: `db.session.delete`
removes the single row the query's `.first()` returned. -/
def removeFirstTxn : List Txn → Nat → List Txn
  | [], _ => []
  | u :: rest, tid =>
    if u.id == tid then rest else u :: removeFirstTxn rest tid

/-- Successful body of update_transaction once validation has passed
(controller.py lines 506-540): patch the found row (amount, description
truncated to 255, date), then reverse the old effect (lines 529-532) and
apply the new effect (lines 535-538); the row's transaction_type,
account_id and category_id are never assigned. -/
def performUpdate (s : LedgerState) (t : Txn) (tid : Nat) (patch : UpdatePatch) :
    LedgerState :=
  let t' : Txn :=
    { t with
        amount := patch.amount.getD t.amount
        description := (patch.description.map (fun d => d.take 255)).getD t.description
        transactionDate := patch.transactionDate.getD t.transactionDate }
  let b1 := reverseEffect s.balance t.amount t.transactionType
  let b2 := applyEffect b1 t'.amount t'.transactionType
  { s with
      balance := b2
      txns := replaceFirstTxn s.txns tid t' }

/-- update_transaction, controller.py lines 485-550: 404 when no
transaction with this id belongs to the user (lines 494-500); a present
but non-positive amount is rejected with 400 (lines 507-511); otherwise
the patched row and the reconciled balance are committed together. -/
def updateTransaction (s : LedgerState) (tid : Nat) (patch : UpdatePatch) :
    Except ApiError LedgerState :=
  match s.txns.find? (fun t => t.id == tid) with
  | none => .error (.notFound "Transaction not found")
  | some t =>
    match patch.amount with
    | some a =>
      if a ≤ 0 then .error (.validation "Amount must be positive")
      else .ok (performUpdate s t tid patch)
    | none => .ok (performUpdate s t tid patch)

/-- delete_transaction, controller.py lines 552-583: 404 when the
transaction is missing; otherwise its effect is reversed on the balance
(lines 570-573) and the row is removed, committed together. -/
def deleteTransaction (s : LedgerState) (tid : Nat) :
    Except ApiError LedgerState :=
  match s.txns.find? (fun t => t.id == tid) with
  | none => .error (.notFound "Transaction not found")
  | some t =>
    .ok { s with
            balance := reverseEffect s.balance t.amount t.transactionType
            txns := removeFirstTxn s.txns tid }

/-- One ledger mutation request against the account. -/
inductive Op where
  | create : CreateReq → Op
  | update : Nat → UpdatePatch → Op
  | delete : Nat → Op
deriving Repr

/-- Dispatch one request to its handler. -/
def step (s : LedgerState) : Op → Except ApiError LedgerState
  | .create req => createTransaction s req
  | .update tid patch => updateTransaction s tid patch
  | .delete tid => deleteTransaction s tid

/-- Total step with the rollback semantics of the handlers: every error
path returns before `db.session.commit()` (or rolls the session back), so
a failed request leaves the persisted state unchanged. -/
def stepTotal (s : LedgerState) (op : Op) : LedgerState :=
  match step s op with
  | .ok s' => s'
  | .error _ => s

/-- A freshly created account (controller.py lines 604-647): its balance
is the requested initial balance and no transactions exist against it. -/
def initState (aid : Nat) (b : ℚ) (cats : List Category) : LedgerState :=
  { accountId := aid
    initialBalance := b
    balance := b
    txns := []
    categories := cats
    nextId := 1 }

/-- Sum of the signed effects of a list of persisted transactions. -/
def effectSum (l : List Txn) : ℚ :=
  (l.map (fun t => signedEffect t.transactionType t.amount)).sum

/-- The spec's balance invariant: the account balance equals its initial
balance plus the sum of signed effects of the persisted transactions. -/
def BalanceInv (s : LedgerState) : Prop :=
  s.balance = s.initialBalance + effectSum s.txns

/-- A row of the `transactions` table of model.py (amount, category name,
transaction_type, date); only the columns get_monthly_summary reads. -/
structure Row where
  amount : ℚ
  category : String
  transaction_type : TxType
  date : TxDate
deriving DecidableEq, Repr

/-- Result dictionary of DatabaseManager.get_monthly_summary. -/
structure MonthlySummary where
  total_income : ℚ
  total_expense : ℚ
  income_count : Nat
  expense_count : Nat
  net_savings : ℚ
  savings_rate : ℚ
deriving DecidableEq, Repr

/-- The WHERE clause of get_monthly_summary (PostgreSQL branch):
EXTRACT(YEAR FROM date) = year AND EXTRACT(MONTH FROM date) = month. -/
def rowInMonth (year month : Nat) (r : Row) : Bool :=
  r.date.year == year && r.date.month == month

/-- SQL SUM of an expression over a list of rows: NULL (none) when the
row set is empty, otherwise the sum. -/
def sqlSum (f : Row → ℚ) (rows : List Row) : Option ℚ :=
  match rows with
  | [] => none
  | _ :: _ => some ((rows.map f).sum)

/-- Python float() applied to a value that may be SQL NULL: float(None)
raises TypeError, which get_monthly_summary re-raises. -/
def pyFloat : Option ℚ → Except String ℚ
  | none => .error "TypeError: float() argument must not be None"
  | some q => .ok q

/-- DatabaseManager.get_monthly_summary, model.py lines 339-372
(PostgreSQL branch; the SQLite branch compares strftime text against an
integer parameter and matches no rows at all).  The single aggregate row
holds SUM(CASE WHEN type THEN amount ELSE 0 END) for each direction —
SQL NULL when the month has no rows — and COUNT of each direction; Python
then computes net_savings with float() on both sums, and savings_rate as
net / total_income * 100 when total_income > 0, else 0 (line 366). -/
def getMonthlySummary (rows : List Row) (year month : Nat) :
    Except String MonthlySummary :=
  let matching := rows.filter (rowInMonth year month)
  let ti? := sqlSum (fun r => if r.transaction_type == .income then r.amount else 0) matching
  let te? := sqlSum (fun r => if r.transaction_type == .expense then r.amount else 0) matching
  let ic := (matching.filter (fun r => r.transaction_type == .income)).length
  let ec := (matching.filter (fun r => r.transaction_type == .expense)).length
  match pyFloat ti?, pyFloat te? with
  | .ok ti, .ok te =>
    let net := ti - te
    .ok { total_income := ti
          total_expense := te
          income_count := ic
          expense_count := ec
          net_savings := net
          savings_rate := if 0 < ti then net / ti * 100 else 0 }
  | .error e, _ => .error e
  | _, .error e => .error e

/-- Income total of a month: the sum the income SUM(CASE ...) aggregate
returns when the month has at least one row. -/
def monthIncomeSum (rows : List Row) (year month : Nat) : ℚ :=
  ((rows.filter (rowInMonth year month)).map
    (fun r => if r.transaction_type == TxType.income then r.amount else 0)).sum

/-- Expense total of a month: the sum the expense SUM(CASE ...) aggregate
returns when the month has at least one row. -/
def monthExpenseSum (rows : List Row) (year month : Nat) : ℚ :=
  ((rows.filter (rowInMonth year month)).map
    (fun r => if r.transaction_type == TxType.expense then r.amount else 0)).sum

/-- An account row as read by the dashboard endpoint: balance, type and
active flag. -/
structure AccountRow where
  balance : ℚ
  accountType : String
  isActive : Bool
deriving DecidableEq, Repr

/-- Dashboard total balance (controller.py line 248): the sum of balances
of the user's active accounts (the query at line 245 filters is_active). -/
def totalBalance (accounts : List AccountRow) : ℚ :=
  ((accounts.filter (fun a => a.isActive)).map (fun a => a.balance)).sum

/-- Date-range membership, endpoints inclusive. -/
def inRange (startD endD d : TxDate) : Bool :=
  startD.ble d && d.ble endD

/-- Dashboard monthly income (controller.py lines 257-266): the sum of
amounts of income transactions dated in the current month window. -/
def monthlyIncome (ts : List Txn) (startD endD : TxDate) : ℚ :=
  ((ts.filter (fun t =>
      inRange startD endD t.transactionDate && t.transactionType == .income)).map
    (fun t => t.amount)).sum

/-- Dashboard monthly expenses (controller.py lines 257-270): the sum of
amounts of expense transactions dated in the current month window. -/
def monthlyExpenses (ts : List Txn) (startD endD : TxDate) : ℚ :=
  ((ts.filter (fun t =>
      inRange startD endD t.transactionDate && t.transactionType == .expense)).map
    (fun t => t.amount)).sum

/-- Dashboard spending-by-category (controller.py lines 278-288): group
the current month's expense transactions by category and sum amounts;
categories with no matching transaction produce no row. -/
def categoryBreakdown (ts : List Txn) (startD endD : TxDate) : List (Nat × ℚ) :=
  let matching := ts.filter (fun t =>
    t.transactionType == .expense && inRange startD endD t.transactionDate)
  ((matching.map (fun t => t.categoryId)).dedup).map (fun cid =>
    (cid, ((matching.filter (fun t => t.categoryId == cid)).map (fun t => t.amount)).sum))

/-- Grouping key borne by a transaction in the trends query:
(EXTRACT(YEAR FROM date), EXTRACT(MONTH FROM date)). -/
def monthKey (t : Txn) : Nat × Nat := (t.transactionDate.year, t.transactionDate.month)

/-- The ORDER BY 'year', 'month' ordering of the trends query. -/
def keyLE (a b : Nat × Nat) : Prop :=
  a.1 < b.1 ∨ (a.1 = b.1 ∧ a.2 ≤ b.2)

instance : DecidableRel keyLE := fun a b => by
  unfold keyLE; infer_instance

instance : IsTotal (Nat × Nat) keyLE :=
  ⟨fun a b => by unfold keyLE; omega⟩

instance : IsTrans (Nat × Nat) keyLE :=
  ⟨fun a b c hab hbc => by unfold keyLE at *; omega⟩

/-- The WHERE clause of the spending-trends query (controller.py lines
696-700): expense transactions dated within [start_date, end_date]. -/
def trendMatches (startD endD : TxDate) (t : Txn) : Bool :=
  t.transactionType == .expense &&
    startD.ble t.transactionDate && t.transactionDate.ble endD

/-- SUM(amount) of the matching transactions that fall in month (y, m). -/
def expenseTotalFor (ts : List Txn) (startD endD : TxDate) (y m : Nat) : ℚ :=
  ((ts.filter (fun t => trendMatches startD endD t && monthKey t == (y, m))).map
    (fun t => t.amount)).sum

/-- get_spending_trends, controller.py lines 679-716: filter expense
transactions to the window, GROUP BY (year, month) of the date — so only
months with at least one matching row yield a tuple — and ORDER BY year,
month ascending.  The window bounds are passed in explicitly here; the
handler computes them as [now - months*30 days, now]. -/
def spendingTrends (ts : List Txn) (startD endD : TxDate) : List (Nat × Nat × ℚ) :=
  let matching := ts.filter (fun t => trendMatches startD endD t)
  let keys := (matching.map monthKey).dedup
  (List.insertionSort keyLE keys).map (fun k =>
    (k.1, k.2, expenseTotalFor ts startD endD k.1 k.2))

/-- Ascending (year, month) order on trend output tuples. -/
def trendLE (a b : Nat × Nat × ℚ) : Prop :=
  keyLE (a.1, a.2.1) (b.1, b.2.1)

/-- Effective page size of GET /api/transactions, controller.py line 336:
the requested per_page (default 20 when absent) clamped to at most 100. -/
def perPageValue (requested : Option Int) : Int :=
  min (requested.getD 20) 100

/-- The page of rows served for a page number and page size, as the
paginated query returns it: skip the earlier pages, take one page. -/
def pageItems (l : List Txn) (page perPage : Int) : List Txn :=
  (l.drop ((page - 1) * perPage).toNat).take perPage.toNat

theorem applyEffect_eq (b a : ℚ) (ty : TxType) :
    applyEffect b a ty = b + signedEffect ty a := by
  cases ty <;> simp [applyEffect, signedEffect, sub_eq_add_neg]

theorem reverseEffect_eq (b a : ℚ) (ty : TxType) :
    reverseEffect b a ty = b - signedEffect ty a := by
  cases ty <;> simp [reverseEffect, signedEffect]

theorem reverse_applyEffect (b a : ℚ) (ty : TxType) :
    reverseEffect (applyEffect b a ty) a ty = b := by
  cases ty <;> simp [applyEffect, reverseEffect]

theorem effectSum_nil : effectSum [] = 0 := rfl

theorem effectSum_cons (t : Txn) (l : List Txn) :
    effectSum (t :: l) = signedEffect t.transactionType t.amount + effectSum l := by
  simp [effectSum]

theorem effectSum_append (l₁ l₂ : List Txn) :
    effectSum (l₁ ++ l₂) = effectSum l₁ + effectSum l₂ := by
  simp [effectSum]

/-- Decomposition of a transaction list around the first row matching an
id, together with the behaviour of replace-first and remove-first on it. -/
theorem txn_find_decomp {l : List Txn} {tid : Nat} {t : Txn}
    (h : l.find? (fun u => u.id == tid) = some t) :
    ∃ l₁ l₂, l = l₁ ++ t :: l₂ ∧ t.id = tid ∧
      (∀ u ∈ l₁, u.id ≠ tid) ∧
      (∀ t', replaceFirstTxn l tid t' = l₁ ++ t' :: l₂) ∧
      removeFirstTxn l tid = l₁ ++ l₂ := by
  induction l with
  | nil => simp at h
  | cons u rest ih =>
    by_cases hu : u.id = tid
    · have hfind : (u :: rest).find? (fun v => v.id == tid) = some u := by
        simp [List.find?_cons, hu]
      rw [hfind] at h
      cases h
      refine ⟨[], rest, by simp, hu, by simp, fun t' => ?_, ?_⟩
      · simp [replaceFirstTxn, hu]
      · simp [removeFirstTxn, hu]
    · have hfind : (u :: rest).find? (fun v => v.id == tid) =
          rest.find? (fun v => v.id == tid) := by
        simp [List.find?_cons, hu]
      rw [hfind] at h
      obtain ⟨l₁, l₂, hl, htid, hl₁, hrep, hrem⟩ := ih h
      refine ⟨u :: l₁, l₂, by simp [hl], htid, ?_, fun t' => ?_, ?_⟩
      · intro v hv
        rcases List.mem_cons.mp hv with rfl | hv
        · exact hu
        · exact hl₁ v hv
      · simp [replaceFirstTxn, hu, hrep t']
      · simp [removeFirstTxn, hu, hrem]

/-- Shape of a successful create: the new row carries the requested
fields and the fresh id, the balance is adjusted by the apply rule, and
the amount was validated positive. -/
theorem create_ok_shape {s : LedgerState} {req : CreateReq} {s' : LedgerState}
    (h : createTransaction s req = Except.ok s') :
    s' = { s with
             balance := applyEffect s.balance req.amount req.transactionType
             txns := s.txns ++
               [{ id := s.nextId
                  accountId := req.accountId
                  categoryId := req.categoryId
                  amount := req.amount
                  description := req.description.take 255
                  transactionType := req.transactionType
                  transactionDate := req.transactionDate }]
             nextId := s.nextId + 1 } ∧ 0 < req.amount := by
  unfold createTransaction at h
  split at h
  · cases h
  · split at h
    · cases h
    · split at h
      · cases h
      · split at h
        · cases h
        · cases h
          exact ⟨rfl, lt_of_not_le ‹¬req.amount ≤ 0›⟩

/-- find? over a list extended with a fresh row finds exactly that row. -/
theorem find_append_singleton (l : List Txn) (nt : Txn) (tid : Nat)
    (hid : nt.id = tid) (hfresh : ∀ t ∈ l, t.id ≠ tid) :
    (l ++ [nt]).find? (fun u => u.id == tid) = some nt := by
  rw [List.find?_append]
  have hnone : l.find? (fun u => u.id == tid) = none := by
    rw [List.find?_eq_none]
    intro t ht
    simpa using hfresh t ht
  rw [hnone]
  simp [List.find?_cons, hid]

/-- Simple computation rule for delete when the row is found. -/
theorem delete_ok_of_find {s : LedgerState} {tid : Nat} {t : Txn}
    (hfind : s.txns.find? (fun u => u.id == tid) = some t) :
    deleteTransaction s tid =
      Except.ok { s with
                    balance := reverseEffect s.balance t.amount t.transactionType
                    txns := removeFirstTxn s.txns tid } := by
  unfold deleteTransaction
  rw [hfind]

/-- C2: reversing is the exact inverse of applying an effect, and
creating then deleting a transaction restores the account balance to its
pre-creation value exactly. -/
theorem c2_reverse_apply_roundtrip :
    (∀ (b amt : ℚ) (dir : TxType), 0 < amt →
        reverseEffect (applyEffect b amt dir) amt dir = b) ∧
    ∀ (s : LedgerState) (req : CreateReq) (s' s'' : LedgerState),
      (∀ t ∈ s.txns, t.id ≠ s.nextId) →
      createTransaction s req = Except.ok s' →
      deleteTransaction s' s.nextId = Except.ok s'' →
      s''.balance = s.balance := by
  constructor
  · intro b amt dir _
    exact reverse_applyEffect b amt dir
  · intro s req s' s'' hfresh hc hd
    obtain ⟨hs', _⟩ := create_ok_shape hc
    subst hs'
    unfold deleteTransaction at hd
    rw [find_append_singleton s.txns _ s.nextId rfl hfresh] at hd
    cases hd
    exact reverse_applyEffect s.balance req.amount req.transactionType

/-- Witness for C2 at a concrete run: an income of 25 on a balance of 10
is created and deleted again, landing back on 10. -/
theorem c2_witness :
    reverseEffect (applyEffect 3 (7 : ℚ) TxType.expense) 7 TxType.expense = 3 ∧
    ({ accountId := 1
       initialBalance := 10
       balance := reverseEffect (applyEffect 10 25 TxType.income) 25 TxType.income
       txns := []
       categories := [{ id := 7, categoryType := TxType.income, isActive := true }]
       nextId := 2 } : LedgerState).balance =
      (initState 1 10 [{ id := 7, categoryType := TxType.income, isActive := true }]).balance := by
  constructor
  · exact c2_reverse_apply_roundtrip.1 3 7 TxType.expense (by norm_num)
  · exact c2_reverse_apply_roundtrip.2
      (initState 1 10 [{ id := 7, categoryType := TxType.income, isActive := true }])
      { accountId := 1, categoryId := 7, amount := 25, description := "pay",
        transactionType := TxType.income, transactionDate := ⟨2024, 3, 5⟩ }
      { accountId := 1
        initialBalance := 10
        balance := applyEffect 10 25 TxType.income
        txns := [{ id := 1, accountId := 1, categoryId := 7, amount := 25,
                   description := "pay".take 255, transactionType := TxType.income,
                   transactionDate := ⟨2024, 3, 5⟩ }]
        categories := [{ id := 7, categoryType := TxType.income, isActive := true }]
        nextId := 2 }
      { accountId := 1
        initialBalance := 10
        balance := reverseEffect (applyEffect 10 25 TxType.income) 25 TxType.income
        txns := []
        categories := [{ id := 7, categoryType := TxType.income, isActive := true }]
        nextId := 2 }
      (by intro t ht; simp [initState] at ht) rfl rfl

/-- C5: a create request whose direction does not match the referenced
category's type is rejected with a validation error (HTTP 400), persists
no transaction, and leaves the account balance unchanged. -/
theorem c5_category_mismatch (s : LedgerState) (req : CreateReq) (c : Category)
    (hfind : findCategory s.categories req.categoryId = some c)
    (hmis : c.categoryType ≠ req.transactionType) :
    (∃ msg, createTransaction s req = Except.error (ApiError.validation msg)) ∧
    (stepTotal s (Op.create req)).balance = s.balance ∧
    (stepTotal s (Op.create req)).txns = s.txns := by
  have herr : ∃ msg, createTransaction s req = Except.error (ApiError.validation msg) := by
    unfold createTransaction
    by_cases hle : req.amount ≤ 0
    · exact ⟨"Amount must be positive", by rw [if_pos hle]⟩
    · by_cases hacc : (req.accountId != s.accountId) = true
      · exact ⟨"Invalid account", by rw [if_neg hle, if_pos hacc]⟩
      · refine ⟨"Category type does not match transaction type", ?_⟩
        rw [if_neg hle, if_neg hacc, hfind]
        exact if_pos (by simpa using hmis)
  obtain ⟨msg, hmsg⟩ := herr
  exact ⟨⟨msg, hmsg⟩, by simp [stepTotal, step, hmsg], by simp [stepTotal, step, hmsg]⟩

/-- Witness for C5: an income request against an expense category on a
concrete ledger is rejected and changes nothing. -/
theorem c5_witness :
    (∃ msg, createTransaction (initState 1 50 [⟨7, TxType.expense, true⟩])
        { accountId := 1, categoryId := 7, amount := 30, description := "x",
          transactionType := TxType.income, transactionDate := ⟨2024, 3, 5⟩ } =
        Except.error (ApiError.validation msg)) ∧
    (stepTotal (initState 1 50 [⟨7, TxType.expense, true⟩])
        (Op.create
          { accountId := 1, categoryId := 7, amount := 30, description := "x",
            transactionType := TxType.income, transactionDate := ⟨2024, 3, 5⟩ })).balance =
      (initState 1 50 [⟨7, TxType.expense, true⟩]).balance ∧
    (stepTotal (initState 1 50 [⟨7, TxType.expense, true⟩])
        (Op.create
          { accountId := 1, categoryId := 7, amount := 30, description := "x",
            transactionType := TxType.income, transactionDate := ⟨2024, 3, 5⟩ })).txns =
      (initState 1 50 [⟨7, TxType.expense, true⟩]).txns :=
  c5_category_mismatch _ _ ⟨7, TxType.expense, true⟩ rfl (by decide)

/-- C10: the served page size is at most 100: a requested per_page above
100 is clamped to 100, an absent per_page defaults to 20, and no page
holds more than 100 rows. -/
theorem c10_page_size_clamp :
    (∀ r : Int, 100 < r → perPageValue (some r) = 100) ∧
    perPageValue none = 20 ∧
    ∀ (l : List Txn) (page : Int) (req : Option Int),
      (pageItems l page (perPageValue req)).length ≤ 100 := by
  refine ⟨?_, by norm_num [perPageValue], ?_⟩
  · intro r hr
    simp only [perPageValue, Option.getD_some]
    omega
  · intro l page req
    have h1 : (perPageValue req).toNat ≤ 100 := by
      simp only [perPageValue]
      omega
    have h2 : (pageItems l page (perPageValue req)).length ≤ (perPageValue req).toNat := by
      simp [pageItems]
    omega

/-- Witness for C10: a request for 250 rows per page is served 100. -/
theorem c10_witness :
    perPageValue (some 250) = 100 ∧ perPageValue none = 20 ∧
    (pageItems [] 1 (perPageValue (some 250))).length ≤ 100 :=
  ⟨c10_page_size_clamp.1 250 (by norm_num), c10_page_size_clamp.2.1,
    c10_page_size_clamp.2.2 [] 1 (some 250)⟩

/-- Computation rule for update when the row is found. -/
theorem update_ok_of_find (s : LedgerState) (tid : Nat) (t : Txn)
    (patch : UpdatePatch)
    (hfind : s.txns.find? (fun u => u.id == tid) = some t) :
    updateTransaction s tid patch =
      match patch.amount with
      | some a =>
        if a ≤ 0 then Except.error (ApiError.validation "Amount must be positive")
        else Except.ok (performUpdate s t tid patch)
      | none => Except.ok (performUpdate s t tid patch) := by
  unfold updateTransaction
  rw [hfind]

/-- A successful update produces exactly the performUpdate state. -/
theorem update_ok_perform {s : LedgerState} {tid : Nat} {patch : UpdatePatch}
    {s' : LedgerState} {t : Txn}
    (hfind : s.txns.find? (fun u => u.id == tid) = some t)
    (h : updateTransaction s tid patch = Except.ok s') :
    s' = performUpdate s t tid patch := by
  rw [update_ok_of_find s tid t patch hfind] at h
  cases hpa : patch.amount with
  | none => simp only [hpa] at h; cases h; rfl
  | some a =>
    simp only [hpa] at h
    by_cases hle : a ≤ 0
    · rw [if_pos hle] at h; cases h
    · rw [if_neg hle] at h; cases h; rfl

/-- C3 counterexample: a PUT request asking to change a 100 expense into
a 40 income on an account with balance 0 leaves the balance at 60, not at
0 + 100 + 40 = 140, because the endpoint ignores the requested direction
change and re-applies the new amount with the old direction. -/
theorem c3_counterexample :
    (updateTransaction
        { accountId := 1, initialBalance := 0, balance := 0,
          txns := [{ id := 1, accountId := 1, categoryId := 7, amount := 100,
                     description := "d", transactionType := TxType.expense,
                     transactionDate := ⟨2024, 3, 5⟩ }],
          categories := [], nextId := 2 } 1
        { amount := some 40, description := none, transactionDate := none,
          transactionType := some TxType.income }).map (fun s => s.balance) =
      Except.ok 60 ∧ (60 : ℚ) ≠ 0 + 100 + 40 := by
  constructor
  · norm_num [updateTransaction, performUpdate, replaceFirstTxn, reverseEffect,
      applyEffect, List.find?, Except.map]
  · norm_num

/-- C3 amended: a successful update reconciles the balance by reversing
the old effect and then applying the new effect, with the direction
unchanged (the endpoint never reads a transaction_type patch); changing a
transaction of amount 100 (expense) to amount 40 — even when direction
income is requested — on an account with balance B leaves B + 100 - 40. -/
theorem c3_update_reconciliation :
    (∀ (s : LedgerState) (tid : Nat) (patch : UpdatePatch) (t : Txn)
        (s' : LedgerState),
        s.txns.find? (fun u => u.id == tid) = some t →
        updateTransaction s tid patch = Except.ok s' →
        s'.balance =
          applyEffect (reverseEffect s.balance t.amount t.transactionType)
            (patch.amount.getD t.amount) t.transactionType) ∧
    ∀ b : ℚ,
      (updateTransaction
          { accountId := 1, initialBalance := b, balance := b,
            txns := [{ id := 1, accountId := 1, categoryId := 7, amount := 100,
                       description := "d", transactionType := TxType.expense,
                       transactionDate := ⟨2024, 3, 5⟩ }],
            categories := [], nextId := 2 } 1
          { amount := some 40, description := none, transactionDate := none,
            transactionType := some TxType.income }).map (fun s => s.balance) =
        Except.ok (b + 100 - 40) := by
  constructor
  · intro s tid patch t s' hfind hok
    have hperf := update_ok_perform hfind hok
    subst hperf
    simp only [performUpdate]
  · intro b
    norm_num [updateTransaction, performUpdate, replaceFirstTxn, reverseEffect,
      applyEffect, List.find?, Except.map]

/-- Witness for C3 at a concrete run: reversing then applying on balance
7 for the patched amount. -/
theorem c3_witness :
    (performUpdate
        { accountId := 1, initialBalance := 7, balance := 7,
          txns := [{ id := 1, accountId := 1, categoryId := 7, amount := 100,
                     description := "d", transactionType := TxType.expense,
                     transactionDate := ⟨2024, 3, 5⟩ }],
          categories := [], nextId := 2 }
        { id := 1, accountId := 1, categoryId := 7, amount := 100,
          description := "d", transactionType := TxType.expense,
          transactionDate := ⟨2024, 3, 5⟩ } 1
        { amount := some 40, description := none, transactionDate := none,
          transactionType := some TxType.income }).balance =
      applyEffect (reverseEffect 7 100 TxType.expense) 40 TxType.expense :=
  c3_update_reconciliation.1
    { accountId := 1, initialBalance := 7, balance := 7,
      txns := [{ id := 1, accountId := 1, categoryId := 7, amount := 100,
                 description := "d", transactionType := TxType.expense,
                 transactionDate := ⟨2024, 3, 5⟩ }],
      categories := [], nextId := 2 } 1
    { amount := some 40, description := none, transactionDate := none,
      transactionType := some TxType.income }
    { id := 1, accountId := 1, categoryId := 7, amount := 100,
      description := "d", transactionType := TxType.expense,
      transactionDate := ⟨2024, 3, 5⟩ } _ rfl rfl

/-- C4: an update mutates only the transaction's amount, description and
date: the id, transaction_type, account_id and category_id columns of
every persisted row are unchanged by any update. -/
theorem c4_update_frame (s : LedgerState) (tid : Nat) (patch : UpdatePatch)
    (s' : LedgerState) (h : updateTransaction s tid patch = Except.ok s') :
    s'.txns.map (fun t => (t.id, t.transactionType, t.accountId, t.categoryId)) =
      s.txns.map (fun t => (t.id, t.transactionType, t.accountId, t.categoryId)) := by
  cases hfind : s.txns.find? (fun u => u.id == tid) with
  | none => unfold updateTransaction at h; rw [hfind] at h; cases h
  | some t =>
    have hperf := update_ok_perform hfind h
    subst hperf
    obtain ⟨l₁, l₂, hl, _, _, hrep, _⟩ := txn_find_decomp hfind
    simp only [performUpdate]
    rw [hrep, hl]
    simp

/-- Witness for C4 at a concrete run: patching amount 100 to 40 leaves
id, type, account and category of the row untouched. -/
theorem c4_witness :
    (performUpdate
        { accountId := 1, initialBalance := 0, balance := 0,
          txns := [{ id := 1, accountId := 1, categoryId := 7, amount := 100,
                     description := "d", transactionType := TxType.expense,
                     transactionDate := ⟨2024, 3, 5⟩ }],
          categories := [], nextId := 2 }
        { id := 1, accountId := 1, categoryId := 7, amount := 100,
          description := "d", transactionType := TxType.expense,
          transactionDate := ⟨2024, 3, 5⟩ } 1
        { amount := some 40, description := none, transactionDate := none,
          transactionType := none }).txns.map
        (fun t => (t.id, t.transactionType, t.accountId, t.categoryId)) =
      ({ accountId := 1, initialBalance := 0, balance := 0,
         txns := [{ id := 1, accountId := 1, categoryId := 7, amount := 100,
                    description := "d", transactionType := TxType.expense,
                    transactionDate := ⟨2024, 3, 5⟩ }],
         categories := [], nextId := 2 } : LedgerState).txns.map
        (fun t => (t.id, t.transactionType, t.accountId, t.categoryId)) :=
  c4_update_frame
    { accountId := 1, initialBalance := 0, balance := 0,
      txns := [{ id := 1, accountId := 1, categoryId := 7, amount := 100,
                 description := "d", transactionType := TxType.expense,
                 transactionDate := ⟨2024, 3, 5⟩ }],
      categories := [], nextId := 2 } 1
    { amount := some 40, description := none, transactionDate := none,
      transactionType := none } _ rfl

/-- A successful create preserves the balance invariant. -/
theorem balanceInv_create {s : LedgerState} {req : CreateReq} {s' : LedgerState}
    (hs : BalanceInv s) (h : createTransaction s req = Except.ok s') :
    BalanceInv s' ∧ s'.initialBalance = s.initialBalance := by
  obtain ⟨hs', _⟩ := create_ok_shape h
  subst hs'
  refine ⟨?_, rfl⟩
  unfold BalanceInv at hs ⊢
  simp only [effectSum_append, effectSum_cons, effectSum_nil, applyEffect_eq, hs]
  ring

/-- A successful update preserves the balance invariant. -/
theorem balanceInv_update {s : LedgerState} {tid : Nat} {patch : UpdatePatch}
    {s' : LedgerState} (hs : BalanceInv s)
    (h : updateTransaction s tid patch = Except.ok s') :
    BalanceInv s' ∧ s'.initialBalance = s.initialBalance := by
  unfold updateTransaction at h
  cases hfind : s.txns.find? (fun t => t.id == tid) with
  | none => rw [hfind] at h; cases h
  | some t =>
    have hperf : s' = performUpdate s t tid patch := by
      apply update_ok_perform hfind
      unfold updateTransaction
      rw [hfind] at h ⊢
      exact h
    obtain ⟨l₁, l₂, hl, _, _, hrep, _⟩ := txn_find_decomp hfind
    subst hperf
    refine ⟨?_, rfl⟩
    unfold BalanceInv at hs ⊢
    simp only [performUpdate]
    rw [hrep]
    simp only [effectSum_append, effectSum_cons, applyEffect_eq, reverseEffect_eq]
    rw [hl] at hs
    simp only [effectSum_append, effectSum_cons] at hs
    rw [hs]
    ring

/-- A successful delete preserves the balance invariant. -/
theorem balanceInv_delete {s : LedgerState} {tid : Nat} {s' : LedgerState}
    (hs : BalanceInv s) (h : deleteTransaction s tid = Except.ok s') :
    BalanceInv s' ∧ s'.initialBalance = s.initialBalance := by
  unfold deleteTransaction at h
  cases hfind : s.txns.find? (fun t => t.id == tid) with
  | none => rw [hfind] at h; cases h
  | some t =>
    rw [hfind] at h
    cases h
    obtain ⟨l₁, l₂, hl, _, _, _, hrem⟩ := txn_find_decomp hfind
    refine ⟨?_, rfl⟩
    unfold BalanceInv at hs ⊢
    simp only [hrem, effectSum_append, reverseEffect_eq]
    rw [hl] at hs
    simp only [effectSum_append, effectSum_cons] at hs
    rw [hs]
    ring

/-- Every request — successful or rolled back — preserves the balance
invariant and never touches the recorded initial balance. -/
theorem balanceInv_stepTotal (s : LedgerState) (op : Op) (hs : BalanceInv s) :
    BalanceInv (stepTotal s op) ∧ (stepTotal s op).initialBalance = s.initialBalance := by
  cases op with
  | create req =>
    simp only [stepTotal, step]
    cases h : createTransaction s req with
    | ok s' => exact balanceInv_create hs h
    | error e => exact ⟨hs, rfl⟩
  | update tid patch =>
    simp only [stepTotal, step]
    cases h : updateTransaction s tid patch with
    | ok s' => exact balanceInv_update hs h
    | error e => exact ⟨hs, rfl⟩
  | delete tid =>
    simp only [stepTotal, step]
    cases h : deleteTransaction s tid with
    | ok s' => exact balanceInv_delete hs h
    | error e => exact ⟨hs, rfl⟩

/-- The balance invariant holds at every state along a request trace. -/
theorem balanceInv_scanl (ops : List Op) (s : LedgerState) (hs : BalanceInv s) :
    ∀ s' ∈ List.scanl stepTotal s ops,
      BalanceInv s' ∧ s'.initialBalance = s.initialBalance := by
  induction ops generalizing s with
  | nil =>
    intro s' h
    simp only [List.scanl, List.mem_singleton] at h
    subst h
    exact ⟨hs, rfl⟩
  | cons op ops ih =>
    intro s' h
    rw [List.scanl] at h
    rcases List.mem_cons.mp h with rfl | h
    · exact ⟨hs, rfl⟩
    · obtain ⟨hstep, hinit⟩ := balanceInv_stepTotal s op hs
      obtain ⟨h1, h2⟩ := ih (stepTotal s op) hstep s' h
      exact ⟨h1, h2.trans hinit⟩

/-- C1: starting from a fresh account with initial balance b, after every
create/update/delete request in any sequence (failed requests roll back),
the account balance equals b plus the sum of the signed effects of the
transactions persisted against the account at that point. -/
theorem c1_balance_invariant (aid : Nat) (b : ℚ) (cats : List Category)
    (ops : List Op) :
    ∀ s ∈ List.scanl stepTotal (initState aid b cats) ops,
      s.balance = b + effectSum s.txns := by
  intro s hs
  have hinit : BalanceInv (initState aid b cats) := by
    unfold BalanceInv initState effectSum
    simp
  obtain ⟨h1, h2⟩ := balanceInv_scanl ops (initState aid b cats) hinit s hs
  unfold BalanceInv at h1
  rw [h1, h2]
  rfl

/-- Witness for C1: a two-request trace (create an expense of 4 on
balance 9, then delete it) keeps the invariant at its final state. -/
theorem c1_witness :
    (stepTotal (stepTotal (initState 1 9 [⟨3, TxType.expense, true⟩])
        (Op.create
          { accountId := 1, categoryId := 3, amount := 4, description := "gas",
            transactionType := TxType.expense, transactionDate := ⟨2024, 5, 2⟩ }))
      (Op.delete 1)).balance =
      9 + effectSum (stepTotal (stepTotal (initState 1 9 [⟨3, TxType.expense, true⟩])
        (Op.create
          { accountId := 1, categoryId := 3, amount := 4, description := "gas",
            transactionType := TxType.expense, transactionDate := ⟨2024, 5, 2⟩ }))
      (Op.delete 1)).txns := by
  refine c1_balance_invariant 1 9 [⟨3, TxType.expense, true⟩]
    [Op.create
      { accountId := 1, categoryId := 3, amount := 4, description := "gas",
        transactionType := TxType.expense, transactionDate := ⟨2024, 5, 2⟩ },
     Op.delete 1] _ ?_
  simp [List.scanl]

/-- When the month has no matching row, both SUM aggregates are SQL NULL
and get_monthly_summary raises TypeError from float(None). -/
theorem getMonthlySummary_err (rows : List Row) (year month : Nat)
    (h : rows.filter (rowInMonth year month) = []) :
    getMonthlySummary rows year month =
      Except.error "TypeError: float() argument must not be None" := by
  simp only [getMonthlySummary, h, sqlSum, pyFloat]

/-- When the month has at least one matching row, get_monthly_summary
returns the dictionary of totals, counts, net savings and savings rate. -/
theorem getMonthlySummary_ok (rows : List Row) (year month : Nat)
    (h : rows.filter (rowInMonth year month) ≠ []) :
    getMonthlySummary rows year month = Except.ok
      { total_income := monthIncomeSum rows year month
        total_expense := monthExpenseSum rows year month
        income_count := ((rows.filter (rowInMonth year month)).filter
          (fun r => r.transaction_type == TxType.income)).length
        expense_count := ((rows.filter (rowInMonth year month)).filter
          (fun r => r.transaction_type == TxType.expense)).length
        net_savings := monthIncomeSum rows year month - monthExpenseSum rows year month
        savings_rate :=
          if 0 < monthIncomeSum rows year month then
            (monthIncomeSum rows year month - monthExpenseSum rows year month) /
              monthIncomeSum rows year month * 100
          else 0 } := by
  simp only [getMonthlySummary, monthIncomeSum, monthExpenseSum]
  cases hm : rows.filter (rowInMonth year month) with
  | nil => exact absurd hm h
  | cons r rest => simp only [hm, sqlSum, pyFloat]

/-- C6: get_monthly_summary selects exactly the transactions whose date
falls in [first day, last day] of the month (for valid dates the SQL
year/month extraction agrees with those bounds), sums income and expense
separately, returns net = income - expense; on the spec's three-row
example for 2024-03 it yields income 500, expense 120, net 380 and
savings rate 76. -/
theorem c6_monthly_totals :
    (∀ (y m : Nat) (d : TxDate), d.valid →
        ((d.year = y ∧ d.month = m) ↔
          (TxDate.ble ⟨y, m, 1⟩ d = true ∧
            TxDate.ble d ⟨y, m, daysInMonth y m⟩ = true))) ∧
    (∀ (rows : List Row) (year month : Nat) (out : MonthlySummary),
        getMonthlySummary rows year month = Except.ok out →
        out.total_income = monthIncomeSum rows year month ∧
        out.total_expense = monthExpenseSum rows year month ∧
        out.net_savings = out.total_income - out.total_expense) ∧
    getMonthlySummary
        [{ amount := 500, category := "Salary", transaction_type := TxType.income,
           date := ⟨2024, 3, 5⟩ },
         { amount := 120, category := "Food", transaction_type := TxType.expense,
           date := ⟨2024, 3, 10⟩ },
         { amount := 30, category := "Food", transaction_type := TxType.expense,
           date := ⟨2024, 4, 1⟩ }] 2024 3 =
      Except.ok { total_income := 500, total_expense := 120, income_count := 1,
                  expense_count := 1, net_savings := 380, savings_rate := 76 } := by
  refine ⟨?_, ?_, ?_⟩
  · intro y m d hvalid
    unfold TxDate.valid at hvalid
    obtain ⟨h1, h2, h3, h4⟩ := hvalid
    constructor
    · rintro ⟨hy, hm⟩
      subst hy
      subst hm
      simp only [TxDate.ble]
      simp [Nat.blt_eq, Nat.ble_eq]
      omega
    · rintro ⟨hb1, hb2⟩
      simp only [TxDate.ble] at hb1 hb2
      simp [Nat.blt_eq, Nat.ble_eq] at hb1 hb2
      omega
  · intro rows year month out hok
    cases hm : rows.filter (rowInMonth year month) with
    | nil =>
      rw [getMonthlySummary_err rows year month hm] at hok
      cases hok
    | cons r rest =>
      rw [getMonthlySummary_ok rows year month (by rw [hm]; simp)] at hok
      cases hok
      exact ⟨rfl, rfl, rfl⟩
  · rw [getMonthlySummary_ok _ 2024 3 (by decide)]
    simp [monthIncomeSum, monthExpenseSum, rowInMonth]
    norm_num

/-- Witness for C6 at concrete inputs: the date-window equivalence at
2024-03-15, the sums characterization at the example output, and both
read off the example computation. -/
theorem c6_witness :
    (((⟨2024, 3, 15⟩ : TxDate).year = 2024 ∧ (⟨2024, 3, 15⟩ : TxDate).month = 3) ↔
      (TxDate.ble ⟨2024, 3, 1⟩ ⟨2024, 3, 15⟩ = true ∧
        TxDate.ble ⟨2024, 3, 15⟩ ⟨2024, 3, daysInMonth 2024 3⟩ = true)) ∧
    (({ total_income := 500, total_expense := 120, income_count := 1,
        expense_count := 1, net_savings := 380, savings_rate := 76 } :
          MonthlySummary).total_income =
      monthIncomeSum
        [{ amount := 500, category := "Salary", transaction_type := TxType.income,
           date := ⟨2024, 3, 5⟩ },
         { amount := 120, category := "Food", transaction_type := TxType.expense,
           date := ⟨2024, 3, 10⟩ },
         { amount := 30, category := "Food", transaction_type := TxType.expense,
           date := ⟨2024, 4, 1⟩ }] 2024 3 ∧
      ({ total_income := 500, total_expense := 120, income_count := 1,
         expense_count := 1, net_savings := 380, savings_rate := 76 } :
           MonthlySummary).total_expense =
        monthExpenseSum
          [{ amount := 500, category := "Salary", transaction_type := TxType.income,
             date := ⟨2024, 3, 5⟩ },
           { amount := 120, category := "Food", transaction_type := TxType.expense,
             date := ⟨2024, 3, 10⟩ },
           { amount := 30, category := "Food", transaction_type := TxType.expense,
             date := ⟨2024, 4, 1⟩ }] 2024 3 ∧
      ({ total_income := 500, total_expense := 120, income_count := 1,
         expense_count := 1, net_savings := 380, savings_rate := 76 } :
           MonthlySummary).net_savings = 500 - 120) :=
  ⟨c6_monthly_totals.1 2024 3 ⟨2024, 3, 15⟩ (by decide),
   c6_monthly_totals.2.1 _ 2024 3 _ c6_monthly_totals.2.2⟩

/-- C7 counterexample: for a month with no persisted transactions (total
income 0), get_monthly_summary raises TypeError instead of returning a
summary with savings_rate 0, because SUM over zero rows is SQL NULL and
float(None) fails. -/
theorem c7_counterexample :
    monthIncomeSum
      [{ amount := 30, category := "Food",
         transaction_type := TxType.expense, date := ⟨2024, 4, 1⟩ }] 2024 3 = 0 ∧
    getMonthlySummary
      [{ amount := 30, category := "Food",
         transaction_type := TxType.expense, date := ⟨2024, 4, 1⟩ }] 2024 3 =
      Except.error "TypeError: float() argument must not be None" := by
  constructor
  · simp [monthIncomeSum, rowInMonth]
  · exact getMonthlySummary_err _ 2024 3 (by decide)

/-- C7 amended: for every month holding at least one persisted
transaction whose income total is 0 (in particular months with only
expenses), get_monthly_summary returns savings_rate = 0 rather than
raising a division-by-zero or any other error. -/
theorem c7_zero_income_rate (rows : List Row) (year month : Nat)
    (hne : rows.filter (rowInMonth year month) ≠ [])
    (hzero : monthIncomeSum rows year month = 0) :
    ∃ out, getMonthlySummary rows year month = Except.ok out ∧
      out.savings_rate = 0 ∧ out.total_income = 0 := by
  refine ⟨_, getMonthlySummary_ok rows year month hne, ?_, hzero⟩
  simp [hzero]

/-- Witness for C7: a March with a single 45 expense and no income gets
savings_rate 0 without an error. -/
theorem c7_witness :
    ∃ out, getMonthlySummary
      [{ amount := 45, category := "Food",
         transaction_type := TxType.expense, date := ⟨2024, 3, 9⟩ }] 2024 3 =
      Except.ok out ∧ out.savings_rate = 0 ∧ out.total_income = 0 :=
  c7_zero_income_rate _ 2024 3 (by decide)
    (by simp [monthIncomeSum, rowInMonth])

/-- C9: on an empty transaction set the dashboard aggregates (total
balance, monthly income and expenses, category breakdown) and the
spending trend all return zeros or empty structures, but the monthly
summary raises TypeError — SUM over zero rows is SQL NULL and the code
calls float(None) — contradicting the never-fail claim. -/
theorem c9_empty_aggregates :
    totalBalance [] = 0 ∧
    monthlyIncome [] ⟨2024, 3, 1⟩ ⟨2024, 3, 31⟩ = 0 ∧
    monthlyExpenses [] ⟨2024, 3, 1⟩ ⟨2024, 3, 31⟩ = 0 ∧
    categoryBreakdown [] ⟨2024, 3, 1⟩ ⟨2024, 3, 31⟩ = [] ∧
    spendingTrends [] ⟨2024, 3, 1⟩ ⟨2024, 3, 31⟩ = [] ∧
    getMonthlySummary [] 2024 3 =
      Except.error "TypeError: float() argument must not be None" := by
  refine ⟨rfl, rfl, rfl, rfl, rfl, ?_⟩
  exact getMonthlySummary_err [] 2024 3 rfl

/-- The trends output is ordered ascending by (year, month). -/
theorem spendingTrends_sorted (ts : List Txn) (startD endD : TxDate) :
    (spendingTrends ts startD endD).Pairwise trendLE := by
  unfold spendingTrends
  rw [List.pairwise_map]
  exact List.sorted_insertionSort keyLE
    ((ts.filter (fun t => trendMatches startD endD t)).map monthKey).dedup

/-- Membership in the trends output: a (year, month, total) tuple appears
exactly when some expense transaction in the window falls in that month,
and then the total is the month's matching expense sum. -/
theorem mem_spendingTrends (ts : List Txn) (startD endD : TxDate)
    (y m : Nat) (q : ℚ) :
    (y, m, q) ∈ spendingTrends ts startD endD ↔
      (q = expenseTotalFor ts startD endD y m ∧
        ∃ t ∈ ts, trendMatches startD endD t = true ∧ monthKey t = (y, m)) := by
  unfold spendingTrends
  rw [List.mem_map]
  constructor
  · rintro ⟨k, hk, hfk⟩
    obtain ⟨h1, h2, h3⟩ :
        k.1 = y ∧ k.2 = m ∧ expenseTotalFor ts startD endD k.1 k.2 = q := by
      simpa [Prod.ext_iff] using hfk
    subst h1
    subst h2
    refine ⟨h3.symm, ?_⟩
    have hk' : k ∈ ((ts.filter (fun t => trendMatches startD endD t)).map monthKey).dedup :=
      (List.perm_insertionSort keyLE _).mem_iff.mp hk
    rw [List.mem_dedup, List.mem_map] at hk'
    obtain ⟨t, ht, hkt⟩ := hk'
    rw [List.mem_filter] at ht
    exact ⟨t, ht.1, ht.2, by rw [hkt]⟩
  · rintro ⟨hq, t, ht, hmatch, hkey⟩
    refine ⟨(y, m), ?_, by rw [hq]⟩
    have hmem : (y, m) ∈ ((ts.filter (fun t => trendMatches startD endD t)).map monthKey).dedup := by
      rw [List.mem_dedup, List.mem_map]
      exact ⟨t, List.mem_filter.mpr ⟨ht, hmatch⟩, hkey⟩
    exact (List.perm_insertionSort keyLE _).mem_iff.mpr hmem

/-- C8 counterexample: with expenses of 50 in 2024-01 and 70 in 2024-03
and a window covering January through March (2024-02-15 lies inside it),
the trends output carries an entry for 2024-01 but no (2024, 2, 0) entry:
the zero-activity month 2024-02 is omitted, not reported with total 0. -/
theorem c8_counterexample :
    TxDate.ble ⟨2024, 1, 1⟩ ⟨2024, 2, 15⟩ = true ∧
    TxDate.ble ⟨2024, 2, 15⟩ ⟨2024, 3, 31⟩ = true ∧
    (2024, 1, expenseTotalFor
        [{ id := 1, accountId := 1, categoryId := 7, amount := 50, description := "a",
           transactionType := TxType.expense, transactionDate := ⟨2024, 1, 10⟩ },
         { id := 2, accountId := 1, categoryId := 7, amount := 70, description := "b",
           transactionType := TxType.expense, transactionDate := ⟨2024, 3, 10⟩ }]
        ⟨2024, 1, 1⟩ ⟨2024, 3, 31⟩ 2024 1) ∈ spendingTrends
        [{ id := 1, accountId := 1, categoryId := 7, amount := 50, description := "a",
           transactionType := TxType.expense, transactionDate := ⟨2024, 1, 10⟩ },
         { id := 2, accountId := 1, categoryId := 7, amount := 70, description := "b",
           transactionType := TxType.expense, transactionDate := ⟨2024, 3, 10⟩ }]
        ⟨2024, 1, 1⟩ ⟨2024, 3, 31⟩ ∧
    (2024, 2, (0 : ℚ)) ∉ spendingTrends
        [{ id := 1, accountId := 1, categoryId := 7, amount := 50, description := "a",
           transactionType := TxType.expense, transactionDate := ⟨2024, 1, 10⟩ },
         { id := 2, accountId := 1, categoryId := 7, amount := 70, description := "b",
           transactionType := TxType.expense, transactionDate := ⟨2024, 3, 10⟩ }]
        ⟨2024, 1, 1⟩ ⟨2024, 3, 31⟩ := by
  refine ⟨rfl, rfl, ?_, ?_⟩
  · refine (mem_spendingTrends _ _ _ 2024 1 _).mpr ⟨rfl, ?_⟩
    refine ⟨{ id := 1, accountId := 1, categoryId := 7, amount := 50, description := "a",
              transactionType := TxType.expense, transactionDate := ⟨2024, 1, 10⟩ },
            ?_, rfl, rfl⟩
    simp
  · intro hmem
    obtain ⟨-, t, ht, -, hkey⟩ := (mem_spendingTrends _ _ _ 2024 2 0).mp hmem
    rcases List.mem_cons.mp ht with rfl | ht
    · cases hkey
    rcases List.mem_cons.mp ht with rfl | ht
    · cases hkey
    simp at ht

/-- C8 amended: the trends endpoint produces a finite list of
(year, month, total_expense) tuples ordered chronologically ascending,
holding exactly the months that have at least one expense transaction
inside the window — months with zero expense activity inside the window
are omitted, not reported with total 0. -/
theorem c8_trends_shape (ts : List Txn) (startD endD : TxDate) :
    (spendingTrends ts startD endD).Pairwise trendLE ∧
    ∀ (y m : Nat) (q : ℚ),
      (y, m, q) ∈ spendingTrends ts startD endD ↔
        (q = expenseTotalFor ts startD endD y m ∧
          ∃ t ∈ ts, trendMatches startD endD t = true ∧ monthKey t = (y, m)) :=
  ⟨spendingTrends_sorted ts startD endD,
   fun y m q => mem_spendingTrends ts startD endD y m q⟩

/-- Witness for C8 at the concrete two-expense ledger: the output is
sorted, and the membership characterization instantiated at 2024-01. -/
theorem c8_witness :
    (spendingTrends
        [{ id := 1, accountId := 1, categoryId := 7, amount := 50, description := "a",
           transactionType := TxType.expense, transactionDate := ⟨2024, 1, 10⟩ }]
        ⟨2024, 1, 1⟩ ⟨2024, 3, 31⟩).Pairwise trendLE ∧
    ((2024, 1, (50 : ℚ)) ∈ spendingTrends
        [{ id := 1, accountId := 1, categoryId := 7, amount := 50, description := "a",
           transactionType := TxType.expense, transactionDate := ⟨2024, 1, 10⟩ }]
        ⟨2024, 1, 1⟩ ⟨2024, 3, 31⟩ ↔
      ((50 : ℚ) = expenseTotalFor
          [{ id := 1, accountId := 1, categoryId := 7, amount := 50, description := "a",
             transactionType := TxType.expense, transactionDate := ⟨2024, 1, 10⟩ }]
          ⟨2024, 1, 1⟩ ⟨2024, 3, 31⟩ 2024 1 ∧
        ∃ t ∈ [{ id := 1, accountId := 1, categoryId := 7, amount := 50, description := "a",
                 transactionType := TxType.expense, transactionDate := ⟨2024, 1, 10⟩ }],
          trendMatches ⟨2024, 1, 1⟩ ⟨2024, 3, 31⟩ t = true ∧ monthKey t = (2024, 1))) :=
  ⟨(c8_trends_shape
      [{ id := 1, accountId := 1, categoryId := 7, amount := 50, description := "a",
         transactionType := TxType.expense, transactionDate := ⟨2024, 1, 10⟩ }]
      ⟨2024, 1, 1⟩ ⟨2024, 3, 31⟩).1,
   (c8_trends_shape
      [{ id := 1, accountId := 1, categoryId := 7, amount := 50, description := "a",
         transactionType := TxType.expense, transactionDate := ⟨2024, 1, 10⟩ }]
      ⟨2024, 1, 1⟩ ⟨2024, 3, 31⟩).2 2024 1 50⟩

end PFM
